import Mathlib

/-!
Shallow embedding of the Forum server (`src/index.js`, first revision):
posts carrying a vote ledger (`upvoteBy` / `downvoteBy` arrays), comments,
and announcements with read tracking, together with the route handlers
that read and mutate them.  JS arrays of voter emails become `List String`;
MongoDB documents become structures; `new Date()` timestamps become `Nat`
arguments supplied by the caller; fallible store calls are modelled by
explicit outcome flags.
-/

namespace ForumServer

/-- JS truthiness of an optional string field: `undefined` and `""` are falsy,
as in the `!post.authorName || ...` validation guards. -/
def truthy : Option String → Bool
  | none => false
  | some s => !(s == "")

/-- JS `x || d` on an optional string: `undefined` and `""` fall back to `d`,
as in `post.authorImage || ""` and `req.user.name || "Unknown"`. -/
def strOr : Option String → String → String
  | none, d => d
  | some s, d => if s == "" then d else s

/-- A document of the `posts` collection, with the fields built by
`POST /posts` plus the Mongo-assigned `_id` (modelled as `id : Nat`). -/
structure Post where
  id : Nat
  authorName : String
  authorEmail : String
  authorImage : String
  postTitle : String
  postDescription : String
  tag : String
  upvoteBy : List String
  downvoteBy : List String
  creation_time : Nat
deriving Repr, DecidableEq, Inhabited

/-- The two values of `req.body.type` accepted by `PATCH /posts/:id/vote`
(anything else is rejected with 400 before the handler body runs). -/
inductive VoteType where
  | upvote
  | downvote
deriving Repr, DecidableEq

/-- The `newPost` document built by `POST /posts` (src/index.js 178-188):
author fields copied from the request, `authorImage || ""`, and empty
`upvoteBy` / `downvoteBy` arrays. -/
def newPost (authorName authorEmail : String) (authorImage : Option String)
    (postTitle postDescription tag : String) (id creation_time : Nat) : Post :=
  { id := id
    authorName := authorName
    authorEmail := authorEmail
    authorImage := strOr authorImage ""
    postTitle := postTitle
    postDescription := postDescription
    tag := tag
    upvoteBy := []
    downvoteBy := []
    creation_time := creation_time }

/-- The in-memory ledger update of `PATCH /posts/:id/vote`
(src/index.js 312-327): `includes` tests membership, `filter(e => e !== userEmail)`
removes the caller, `push` appends it; the `|| []` defaults are folded into the
always-present list fields. -/
def toggleVote (post : Post) (userEmail : String) : VoteType → Post
  | .upvote =>
    if userEmail ∈ post.upvoteBy then
      { post with upvoteBy := post.upvoteBy.filter (fun e => e ≠ userEmail) }
    else
      { post with
          upvoteBy := post.upvoteBy ++ [userEmail]
          downvoteBy := post.downvoteBy.filter (fun e => e ≠ userEmail) }
  | .downvote =>
    if userEmail ∈ post.downvoteBy then
      { post with downvoteBy := post.downvoteBy.filter (fun e => e ≠ userEmail) }
    else
      { post with
          downvoteBy := post.downvoteBy ++ [userEmail]
          upvoteBy := post.upvoteBy.filter (fun e => e ≠ userEmail) }

/-- The ledger array matching a vote type (`upvoteBy` for `upvote`). -/
def matchingVoters (p : Post) : VoteType → List String
  | .upvote => p.upvoteBy
  | .downvote => p.downvoteBy

/-- The ledger array opposite to a vote type (`downvoteBy` for `upvote`). -/
def oppositeVoters (p : Post) : VoteType → List String
  | .upvote => p.downvoteBy
  | .downvote => p.upvoteBy

theorem mem_filter_ne {x v : String} {l : List String} :
    x ∈ l.filter (fun e => e ≠ v) ↔ x ∈ l ∧ x ≠ v := by
  simp [List.mem_filter]

theorem toggle_self_not_both (p : Post) (v : String) (t : VoteType) :
    ¬ (v ∈ (toggleVote p v t).upvoteBy ∧ v ∈ (toggleVote p v t).downvoteBy) := by
  cases t <;> simp only [toggleVote] <;> split <;>
    simp_all [mem_filter_ne]

/-- C1: `PATCH /posts/:id/vote` with a valid vote type removes the caller
from the ledger array matching the vote type when already present (toggle
off); otherwise it adds the caller to the matching array and removes it from
the opposite array; either way, afterwards at most one of the two arrays
contains the caller. -/
theorem toggleVote_at_most_one (p : Post) (v : String) (t : VoteType) :
    (v ∈ matchingVoters p t → v ∉ matchingVoters (toggleVote p v t) t) ∧
    (v ∉ matchingVoters p t →
      v ∈ matchingVoters (toggleVote p v t) t ∧
        v ∉ oppositeVoters (toggleVote p v t) t) ∧
    ¬ (v ∈ (toggleVote p v t).upvoteBy ∧ v ∈ (toggleVote p v t).downvoteBy) := by
  refine ⟨?_, ?_, toggle_self_not_both p v t⟩ <;>
    cases t <;> simp only [toggleVote, matchingVoters, oppositeVoters] <;>
      intro h <;> simp_all [mem_filter_ne]

theorem toggleVote_at_most_one_witness :
    "bob@x" ∉ matchingVoters (newPost "Alice" "alice@x" none "T" "D" "bug" 1 0) .upvote ∧
    ("bob@x" ∈ matchingVoters
        (toggleVote (newPost "Alice" "alice@x" none "T" "D" "bug" 1 0)
          "bob@x" .upvote) .upvote ∧
      "bob@x" ∉ oppositeVoters
        (toggleVote (newPost "Alice" "alice@x" none "T" "D" "bug" 1 0)
          "bob@x" .upvote) .upvote) :=
  ⟨by decide,
    (toggleVote_at_most_one (newPost "Alice" "alice@x" none "T" "D" "bug" 1 0)
      "bob@x" .upvote).2.1 (by decide)⟩

theorem filter_ne_of_not_mem {v : String} {l : List String} (h : v ∉ l) :
    l.filter (fun e => e ≠ v) = l :=
  List.filter_eq_self.mpr fun a ha => by
    simp only [ne_eq, decide_eq_true_eq]
    exact fun hav => h (hav ▸ ha)

theorem toggle_mem_of_ne (p : Post) (v x : String) (t : VoteType) (hx : x ≠ v) :
    (x ∈ (toggleVote p v t).upvoteBy ↔ x ∈ p.upvoteBy) ∧
    (x ∈ (toggleVote p v t).downvoteBy ↔ x ∈ p.downvoteBy) := by
  cases t <;> simp only [toggleVote] <;> split <;>
    simp_all [mem_filter_ne, List.mem_append]

/-- The vote-ledger invariant: no identity appears in both arrays. -/
def ledgerDisjoint (p : Post) : Prop :=
  ∀ x, ¬ (x ∈ p.upvoteBy ∧ x ∈ p.downvoteBy)

theorem toggle_preserves_disjoint (p : Post) (v : String) (t : VoteType)
    (h : ledgerDisjoint p) : ledgerDisjoint (toggleVote p v t) := by
  intro x
  by_cases hx : x = v
  · subst hx; exact toggle_self_not_both p x t
  · have hm := toggle_mem_of_ne p v x t hx
    exact fun hc => h x ⟨hm.1.mp hc.1, hm.2.mp hc.2⟩

/-- A sequence of `PATCH /posts/:id/vote` ledger updates applied to one post,
each with a voter email and a vote type. -/
def applyVotes (p : Post) : List (String × VoteType) → Post
  | [] => p
  | op :: ops => applyVotes (toggleVote p op.1 op.2) ops

theorem applyVotes_preserves_disjoint (ops : List (String × VoteType)) :
    ∀ p : Post, ledgerDisjoint p → ledgerDisjoint (applyVotes p ops) := by
  induction ops with
  | nil => exact fun p h => h
  | cons op ops ih =>
      exact fun p h => ih _ (toggle_preserves_disjoint p op.1 op.2 h)

/-- C2: starting from a freshly created post (empty vote arrays) and applying
any sequence of vote toggles, the `upvoteBy` and `downvoteBy` arrays stay
disjoint: no identity is in both at once. -/
theorem created_post_ledgers_disjoint (authorName authorEmail : String)
    (authorImage : Option String) (postTitle postDescription tag : String)
    (id now : Nat) (ops : List (String × VoteType)) (x : String) :
    ¬ (x ∈ (applyVotes (newPost authorName authorEmail authorImage
              postTitle postDescription tag id now) ops).upvoteBy ∧
       x ∈ (applyVotes (newPost authorName authorEmail authorImage
              postTitle postDescription tag id now) ops).downvoteBy) := by
  refine applyVotes_preserves_disjoint ops _ ?_ x
  intro y hy
  simp [newPost] at hy

theorem created_post_ledgers_disjoint_witness :
    ¬ ("ann@x" ∈ (applyVotes (newPost "Alice" "alice@x" none "T" "D" "bug" 1 0)
          [("ann@x", .upvote), ("bob@x", .downvote)]).upvoteBy ∧
       "ann@x" ∈ (applyVotes (newPost "Alice" "alice@x" none "T" "D" "bug" 1 0)
          [("ann@x", .upvote), ("bob@x", .downvote)]).downvoteBy) :=
  created_post_ledgers_disjoint "Alice" "alice@x" none "T" "D" "bug" 1 0
    [("ann@x", .upvote), ("bob@x", .downvote)] "ann@x"

/-- C5: from a state where the voter is in neither ledger array, toggling
an upvote twice returns the post — ledger included — to its original state. -/
theorem toggleVote_upvote_twice (p : Post) (v : String)
    (hu : v ∉ p.upvoteBy) (hd : v ∉ p.downvoteBy) :
    toggleVote (toggleVote p v .upvote) v .upvote = p := by
  obtain ⟨id, an, ae, ai, pt, pd, tg, up, down, ct⟩ := p
  simp only [] at hu hd
  simp [toggleVote, hu, List.filter_append, filter_ne_of_not_mem hu,
    filter_ne_of_not_mem hd]
  exact ⟨fun a ha h => hu (h ▸ ha), fun a ha h => hd (h ▸ ha)⟩

theorem toggleVote_upvote_twice_witness :
    ("bob@x" ∉ (newPost "Alice" "alice@x" none "T" "D" "bug" 1 0).upvoteBy ∧
      "bob@x" ∉ (newPost "Alice" "alice@x" none "T" "D" "bug" 1 0).downvoteBy) ∧
    toggleVote
        (toggleVote (newPost "Alice" "alice@x" none "T" "D" "bug" 1 0)
          "bob@x" .upvote)
        "bob@x" .upvote
      = newPost "Alice" "alice@x" none "T" "D" "bug" 1 0 :=
  ⟨⟨by decide, by decide⟩,
    toggleVote_upvote_twice (newPost "Alice" "alice@x" none "T" "D" "bug" 1 0)
      "bob@x" (by decide) (by decide)⟩

/-- `findOne({_id})` on the posts collection: the first document with the id. -/
def findPost (posts : List Post) (pid : Nat) : Option Post :=
  posts.find? (fun p => p.id = pid)

/-- The `findOneAndUpdate({_id: postId}, {$set: {upvoteBy, downvoteBy}})`
write of the vote route: overwrite both ledger arrays of the first post with
the given id, leaving every other document alone. -/
def setVotes : List Post → Nat → List String → List String → List Post
  | [], _, _, _ => []
  | p :: rest, pid, up, down =>
      if p.id = pid then { p with upvoteBy := up, downvoteBy := down } :: rest
      else p :: setVotes rest pid up down

/-- Phase 1 of `PATCH /posts/:id/vote` (src/index.js 309-327): read the post
and compute the new ledger arrays in memory; `none` when the post is absent
(the route answers 404 and writes nothing). -/
def voteReadPhase (posts : List Post) (pid : Nat) (userEmail : String)
    (t : VoteType) : Option (List String × List String) :=
  (findPost posts pid).map fun post =>
    ((toggleVote post userEmail t).upvoteBy, (toggleVote post userEmail t).downvoteBy)

/-- Phase 2 of the vote route (src/index.js 329-333): write the precomputed
arrays back with `$set`, keyed only by `_id`, overwriting whatever is there. -/
def voteWritePhase (posts : List Post) (pid : Nat)
    (ud : List String × List String) : List Post :=
  setVotes posts pid ud.1 ud.2

/-- The vote route run in isolation: read phase, then write phase against the
same collection; an absent post leaves the collection unchanged. -/
def voteRoute (posts : List Post) (pid : Nat) (userEmail : String)
    (t : VoteType) : List Post :=
  match voteReadPhase posts pid userEmail t with
  | none => posts
  | some ud => voteWritePhase posts pid ud

/-- Outcome of `POST /posts` as seen by the caller. -/
inductive CreatePostResult where
  | badRequest
  | forbidden
  | serverError
  | createdOk
deriving Repr, DecidableEq

/-- `POST /posts` (src/index.js 168-204).  Optional strings model possibly
missing body fields; `insertOk` / `incOk` say whether `insertOne` on posts and
the best-effort `$inc` update on the author's user record succeed or throw.
Both calls sit in one `try` block, so either throw lands in the catch and
answers 500 ("Failed to add post"); an already performed insert is not rolled
back. -/
def createPost (authorName authorEmail authorImage postTitle postDescription
    tag : Option String) (userEmail : String) (posts : List Post)
    (id now : Nat) (insertOk incOk : Bool) : CreatePostResult × List Post :=
  if !(truthy authorName && truthy authorEmail && truthy postTitle
        && truthy postDescription && truthy tag) then
    (.badRequest, posts)
  else if userEmail ≠ authorEmail.getD "" then
    (.forbidden, posts)
  else
    let np := newPost (authorName.getD "") (authorEmail.getD "") authorImage
      (postTitle.getD "") (postDescription.getD "") (tag.getD "") id now
    if insertOk then
      if incOk then (.createdOk, posts ++ [np])
      else (.serverError, posts ++ [np])
    else (.serverError, posts)

/-- A document of the `comments` collection, as built by
`POST /posts/:id/comment`; `comment` is `Option String` because the route
stores `req.body.comment` as sent, which may be `undefined`. -/
structure Comment where
  postId : Nat
  postTitle : String
  comment : Option String
  commenterName : String
  commenterEmail : String
  commenterImage : String
  createdAt : Nat
deriving Repr, DecidableEq

/-- Outcome of `POST /posts/:id/comment` as seen by the caller. -/
inductive CommentResult where
  | notFound
  | created (c : Comment) (commentsCount : Nat)
deriving Repr, DecidableEq

/-- HTTP status code the comment route answers with. -/
def CommentResult.status : CommentResult → Nat
  | .notFound => 404
  | .created _ _ => 201

/-- `POST /posts/:id/comment` (src/index.js 273-296): look the post up (404
when absent), build the comment — the body is stored exactly as sent, with no
validation — insert it, then `countDocuments({postId})` over the comments. -/
def postComment (posts : List Post) (comments : List Comment) (pid : Nat)
    (body : Option String) (userName : Option String) (userEmail : String)
    (userPicture : Option String) (now : Nat) : CommentResult × List Comment :=
  match findPost posts pid with
  | none => (.notFound, comments)
  | some post =>
      let newComment : Comment :=
        { postId := pid
          postTitle := post.postTitle
          comment := body
          commenterName := strOr userName "Unknown"
          commenterEmail := userEmail
          commenterImage := strOr userPicture ""
          createdAt := now }
      let inserted := comments ++ [newComment]
      let commentsCount := (inserted.filter (fun k => k.postId = pid)).length
      (.created newComment commentsCount, inserted)

/-- A document of the `announcements` collection.  The `newAnnouncement`
document built by `POST /announcements` carries no `seenBy` field at all, so
the field is an `Option`: `none` models a missing field, which Mongo's
`$ne` filter matches and whose `$push` creates the array. -/
structure Announcement where
  authorName : String
  authorEmail : String
  authorImage : String
  title : String
  description : String
  creation_time : Nat
  seenBy : Option (List String)
deriving Repr, DecidableEq

/-- The `seenBy` array with a `[]` default for a missing field. -/
def seenList (a : Announcement) : List String :=
  a.seenBy.getD []

/-- Mongo's `{seenBy: {$ne: email}}` filter: matches a document whose `seenBy`
field is missing or is an array with no element equal to `email`. -/
def seenByNe (a : Announcement) (email : String) : Bool :=
  match a.seenBy with
  | none => true
  | some l => !(l.contains email)

/-- Mongo's `{$push: {seenBy: email}}`: appends to the array, creating it when
the field is missing. -/
def pushSeen (a : Announcement) (email : String) : Announcement :=
  { a with seenBy := some (seenList a ++ [email]) }

/-- The per-document effect of the `updateMany` in
`PATCH /announcements/mark-seen`: push the email onto `seenBy` when the
`$ne` filter matches, otherwise leave the document alone. -/
def markSeenStep (email : String) (a : Announcement) : Announcement :=
  if seenByNe a email then pushSeen a email else a

/-- `PATCH /announcements/mark-seen` (src/index.js 425-437):
`updateMany({seenBy: {$ne: email}}, {$push: {seenBy: email}})`. -/
def markAllSeenFor (anns : List Announcement) (email : String) :
    List Announcement :=
  anns.map (markSeenStep email)

/-- `GET /announcements/unseen/count` (src/index.js 408-422):
`countDocuments({seenBy: {$ne: email}})`. -/
def unseenCountFor (anns : List Announcement) (email : String) : Nat :=
  (anns.filter (fun a => seenByNe a email)).length

/-- Outcome of `POST /announcements` as seen by the caller. -/
inductive CreateAnnResult where
  | badRequest
  | forbidden
  | created (a : Announcement)
deriving Repr, DecidableEq

/-- `POST /announcements` (src/index.js 362-387): field validation, identity
check, then the `newAnnouncement` document — which has no `seenBy` field. -/
def createAnnouncement (authorName authorEmail authorImage title
    description : Option String) (userEmail : String) (now : Nat) :
    CreateAnnResult :=
  if !(truthy authorName && truthy authorEmail && truthy title
        && truthy description) then
    .badRequest
  else if userEmail ≠ authorEmail.getD "" then
    .forbidden
  else
    .created
      { authorName := authorName.getD ""
        authorEmail := authorEmail.getD ""
        authorImage := strOr authorImage ""
        title := title.getD ""
        description := description.getD ""
        creation_time := now
        seenBy := none }

/-- C3: the vote route's state update is, by definition, its read phase
followed by its `$set` write phase — a read-modify-write pair — and the
interleaving "A reads, B reads, A writes, B writes" of two different voters
upvoting the same post loses A's vote, whereas the same two toggles run in
sequence keep both voters; the update is not a single atomic operation. -/
theorem voteRoute_lost_update :
    (∀ (posts : List Post) (pid : Nat) (v : String) (t : VoteType),
      voteRoute posts pid v t =
        match voteReadPhase posts pid v t with
        | none => posts
        | some ud => voteWritePhase posts pid ud) ∧
    voteReadPhase [newPost "Alice" "alice@x" none "T" "D" "bug" 7 0] 7
        "a@x" .upvote = some (["a@x"], []) ∧
    voteReadPhase [newPost "Alice" "alice@x" none "T" "D" "bug" 7 0] 7
        "b@x" .upvote = some (["b@x"], []) ∧
    voteWritePhase
        (voteWritePhase [newPost "Alice" "alice@x" none "T" "D" "bug" 7 0] 7
          (["a@x"], []))
        7 (["b@x"], [])
      = [{ newPost "Alice" "alice@x" none "T" "D" "bug" 7 0 with
            upvoteBy := ["b@x"] }] ∧
    voteRoute
        (voteRoute [newPost "Alice" "alice@x" none "T" "D" "bug" 7 0] 7
          "a@x" .upvote)
        7 "b@x" .upvote
      = [{ newPost "Alice" "alice@x" none "T" "D" "bug" 7 0 with
            upvoteBy := ["a@x", "b@x"] }] :=
  ⟨fun _ _ _ _ => rfl, by decide, by decide, by decide, by decide⟩

/-- C4 evaluation: on a valid creation request where `insertOne` succeeds but
the best-effort `$inc` on the author's user record throws, the route answers
500 ("Failed to add post") even though the post is in the collection; the same
call with a succeeding increment answers 201 with the same collection. -/
theorem createPost_inc_failure_surfaced :
    createPost (some "Alice") (some "alice@x") none (some "T") (some "D")
        (some "bug") "alice@x" [] 7 0 true false
      = (.serverError, [newPost "Alice" "alice@x" none "T" "D" "bug" 7 0]) ∧
    createPost (some "Alice") (some "alice@x") none (some "T") (some "D")
        (some "bug") "alice@x" [] 7 0 true true
      = (.createdOk, [newPost "Alice" "alice@x" none "T" "D" "bug" 7 0]) :=
  ⟨by decide, by decide⟩

/-- C6: with the post present, the comment append stores the comment and
returns it with a count computed over the collection after the insertion —
one more than before the call, so it includes the just-added comment. -/
theorem postComment_count_after_insert (posts : List Post)
    (comments : List Comment) (pid : Nat) (body : Option String)
    (userName : Option String) (userEmail : String)
    (userPicture : Option String) (now : Nat) (post : Post)
    (h : findPost posts pid = some post) :
    (postComment posts comments pid body userName userEmail userPicture now).1
      = .created
          { postId := pid
            postTitle := post.postTitle
            comment := body
            commenterName := strOr userName "Unknown"
            commenterEmail := userEmail
            commenterImage := strOr userPicture ""
            createdAt := now }
          ((comments.filter (fun k => k.postId = pid)).length + 1) ∧
    (postComment posts comments pid body userName userEmail userPicture now).2
      = comments ++
          [{ postId := pid
             postTitle := post.postTitle
             comment := body
             commenterName := strOr userName "Unknown"
             commenterEmail := userEmail
             commenterImage := strOr userPicture ""
             createdAt := now }] ∧
    (((postComment posts comments pid body userName userEmail
          userPicture now).2).filter (fun k => k.postId = pid)).length
      = (comments.filter (fun k => k.postId = pid)).length + 1 := by
  simp [postComment, h, List.filter_append]

theorem postComment_count_after_insert_witness :
    (postComment [newPost "Ann" "ann@x" none "T" "D" "fix" 3 0] [] 3
        (some "hi") none "bob@x" none 1).1
      = .created
          { postId := 3
            postTitle := "T"
            comment := some "hi"
            commenterName := "Unknown"
            commenterEmail := "bob@x"
            commenterImage := ""
            createdAt := 1 }
          ((([] : List Comment).filter (fun k => k.postId = 3)).length + 1) :=
  (postComment_count_after_insert
    [newPost "Ann" "ann@x" none "T" "D" "fix" 3 0] [] 3 (some "hi") none
    "bob@x" none 1 (newPost "Ann" "ann@x" none "T" "D" "fix" 3 0)
    (by decide)).1

theorem seenByNe_true_iff (a : Announcement) (email : String) :
    seenByNe a email = true ↔ email ∉ seenList a := by
  cases h : a.seenBy <;> simp [seenByNe, seenList, h]

theorem markSeenStep_mem (email : String) (a : Announcement) :
    email ∈ seenList (markSeenStep email a) := by
  by_cases h : seenByNe a email = true
  · simp [markSeenStep, h, pushSeen, seenList]
  · have hm : email ∈ seenList a := by
      by_contra hc
      exact h ((seenByNe_true_iff a email).mpr hc)
    simp [markSeenStep, h, hm]

theorem markSeenStep_fixed (email : String) (a : Announcement)
    (hm : email ∈ seenList a) : markSeenStep email a = a := by
  have h : seenByNe a email = false := by
    rcases Bool.eq_false_or_eq_true (seenByNe a email) with h | h
    · exact absurd hm ((seenByNe_true_iff a email).mp h)
    · exact h
  simp [markSeenStep, h]

theorem markSeenStep_idem (email : String) (a : Announcement) :
    markSeenStep email (markSeenStep email a) = markSeenStep email a :=
  markSeenStep_fixed email _ (markSeenStep_mem email a)

/-- C7: mark-seen adds the caller to `seenBy` of every announcement that does
not already contain it, leaves the already-acknowledged ones unchanged, and a
second call right afterwards changes no announcement. -/
theorem markAllSeenFor_idempotent (anns : List Announcement) (email : String) :
    List.Forall₂ (fun a a' =>
        email ∈ seenList a' ∧ (email ∈ seenList a → a' = a))
      anns (markAllSeenFor anns email) ∧
    markAllSeenFor (markAllSeenFor anns email) email
      = markAllSeenFor anns email := by
  constructor
  · unfold markAllSeenFor
    refine List.forall₂_map_right_iff.mpr (List.forall₂_same.mpr fun a _ => ?_)
    exact ⟨markSeenStep_mem email a, fun hm => markSeenStep_fixed email a hm⟩
  · simp [markAllSeenFor, List.map_map, Function.comp, markSeenStep_idem]

/-- A sample announcement document for concrete witnesses, with an already
populated `seenBy` array. -/
def seedAnn : Announcement :=
  { authorName := "Ann"
    authorEmail := "ann@x"
    authorImage := ""
    title := "T"
    description := "D"
    creation_time := 0
    seenBy := some ["v@x"] }

theorem markAllSeenFor_idempotent_witness :
    markAllSeenFor (markAllSeenFor [seedAnn] "u@x") "u@x"
      = markAllSeenFor [seedAnn] "u@x" :=
  (markAllSeenFor_idempotent [seedAnn] "u@x").2

/-- C8: a successfully created announcement has no acknowledger: its `seenBy`
reads back as the empty set, every identity's unseen filter matches it, and
adding it to the collection raises every identity's unseen count by one. -/
theorem createAnnouncement_unseen_by_all
    (authorName authorEmail authorImage title description : Option String)
    (userEmail : String) (now : Nat) (a : Announcement)
    (h : createAnnouncement authorName authorEmail authorImage title
          description userEmail now = .created a) :
    seenList a = [] ∧
    (∀ identity : String, seenByNe a identity = true) ∧
    (∀ (anns : List Announcement) (identity : String),
      unseenCountFor (anns ++ [a]) identity
        = unseenCountFor anns identity + 1) := by
  have hs : a.seenBy = none := by
    unfold createAnnouncement at h
    split at h
    · cases h
    · split at h
      · cases h
      · cases h; rfl
  refine ⟨by simp [seenList, hs], fun identity => by simp [seenByNe, hs], ?_⟩
  intro anns identity
  simp [unseenCountFor, List.filter_append, seenByNe, hs]

/-- The document `POST /announcements` stores for a sample valid request. -/
def freshAnn : Announcement :=
  { authorName := "Ann"
    authorEmail := "ann@x"
    authorImage := ""
    title := "Big"
    description := "News"
    creation_time := 3
    seenBy := none }

theorem createAnnouncement_unseen_by_all_witness :
    createAnnouncement (some "Ann") (some "ann@x") none (some "Big")
        (some "News") "ann@x" 3 = .created freshAnn ∧
    unseenCountFor ([] ++ [freshAnn]) "u@x" = unseenCountFor [] "u@x" + 1 :=
  ⟨by decide,
    (createAnnouncement_unseen_by_all (some "Ann") (some "ann@x") none
      (some "Big") (some "News") "ann@x" 3 freshAnn (by decide)).2.2 [] "u@x"⟩

/-- Field preservation across a vote-route write: the updated document keeps
every field other than the two ledger arrays, and a document whose id differs
from the target is untouched. -/
def voteFrame (pid : Nat) (q q' : Post) : Prop :=
  q'.id = q.id ∧ q'.authorName = q.authorName ∧
  q'.authorEmail = q.authorEmail ∧ q'.authorImage = q.authorImage ∧
  q'.postTitle = q.postTitle ∧ q'.postDescription = q.postDescription ∧
  q'.tag = q.tag ∧ q'.creation_time = q.creation_time ∧
  (q.id ≠ pid → q' = q)

theorem voteFrame_refl (pid : Nat) (q : Post) : voteFrame pid q q :=
  ⟨rfl, rfl, rfl, rfl, rfl, rfl, rfl, rfl, fun _ => rfl⟩

theorem setVotes_frame (pid : Nat) (up down : List String) :
    ∀ posts : List Post,
      List.Forall₂ (voteFrame pid) posts (setVotes posts pid up down) := by
  intro posts
  induction posts with
  | nil => exact List.Forall₂.nil
  | cons p rest ih =>
      by_cases h : p.id = pid
      · simp only [setVotes, if_pos h]
        refine List.Forall₂.cons ?_
          (List.forall₂_same.mpr fun x _ => voteFrame_refl pid x)
        exact ⟨rfl, rfl, rfl, rfl, rfl, rfl, rfl, rfl,
          fun hne => absurd h hne⟩
      · simp only [setVotes, if_neg h]
        exact List.Forall₂.cons (voteFrame_refl pid p) ih

/-- C9: the vote route changes only the `upvoteBy` and `downvoteBy` fields of
the targeted post — its author fields, title, description, tag, id, and
creation time are kept — and every post whose id differs from the target is
left exactly as it was. -/
theorem voteRoute_frame (posts : List Post) (pid : Nat) (v : String)
    (t : VoteType) :
    List.Forall₂ (voteFrame pid) posts (voteRoute posts pid v t) := by
  unfold voteRoute
  cases voteReadPhase posts pid v t with
  | none => exact List.forall₂_same.mpr fun x _ => voteFrame_refl pid x
  | some ud => exact setVotes_frame pid ud.1 ud.2 posts

theorem voteRoute_frame_witness :
    List.Forall₂ (voteFrame 7)
      [newPost "Alice" "alice@x" none "T" "D" "bug" 7 0]
      (voteRoute [newPost "Alice" "alice@x" none "T" "D" "bug" 7 0] 7
        "bob@x" .upvote) :=
  voteRoute_frame [newPost "Alice" "alice@x" none "T" "D" "bug" 7 0] 7
    "bob@x" .upvote

/-- C10: the comment route validates nothing about the body: with the post
present, any body — a missing one (`undefined`) and the empty string included
— gets a 201 and is stored exactly as sent, whereas `POST /posts` and
`POST /announcements` answer 400 whenever a required field is missing. -/
theorem postComment_no_body_validation (posts : List Post)
    (comments : List Comment) (pid : Nat) (userName : Option String)
    (userEmail : String) (userPicture : Option String) (now : Nat)
    (post : Post) (h : findPost posts pid = some post) :
    (∀ body : Option String,
      ((postComment posts comments pid body userName userEmail userPicture
          now).1).status = 201 ∧
      (postComment posts comments pid body userName userEmail userPicture
          now).2
        = comments ++
            [{ postId := pid
               postTitle := post.postTitle
               comment := body
               commenterName := strOr userName "Unknown"
               commenterEmail := userEmail
               commenterImage := strOr userPicture ""
               createdAt := now }]) ∧
    (∀ (an ae ai pd tg : Option String) (ue : String) (ps : List Post)
        (i n : Nat) (b1 b2 : Bool),
      (createPost an ae ai none pd tg ue ps i n b1 b2).1 = .badRequest) ∧
    (∀ (an ae ai ds : Option String) (ue : String) (n : Nat),
      createAnnouncement an ae ai none ds ue n = .badRequest) := by
  refine ⟨fun body => ?_, fun an ae ai pd tg ue ps i n b1 b2 => ?_,
    fun an ae ai ds ue n => ?_⟩
  · simp [postComment, h, CommentResult.status]
  · simp [createPost, truthy]
  · simp [createAnnouncement, truthy]

theorem postComment_no_body_validation_witness :
    ((postComment [newPost "Cara" "cara@x" none "T" "D" "fix" 9 0] [] 9 none
        none "bob@x" none 1).1).status = 201 ∧
    (postComment [newPost "Cara" "cara@x" none "T" "D" "fix" 9 0] [] 9 none
        none "bob@x" none 1).2
      = [] ++
          [{ postId := 9
             postTitle := "T"
             comment := none
             commenterName := strOr none "Unknown"
             commenterEmail := "bob@x"
             commenterImage := strOr none ""
             createdAt := 1 }] :=
  (postComment_no_body_validation
    [newPost "Cara" "cara@x" none "T" "D" "fix" 9 0] [] 9 none "bob@x" none 1
    (newPost "Cara" "cara@x" none "T" "D" "fix" 9 0) (by decide)).1 none

end ForumServer
